import Mathlib

/-!
# Verification of the Jamf inventory dashboard core (src/app.py)

A shallow embedding of the enrichment and filtering engine of the dashboard.
Data frames are modelled as a list of column names plus labelled rows of cells;
a cell is either null (pandas NaN/NaT) or a string, an integer day count, or a
parsed timestamp (at day granularity).  Pure functions below are translated
line by line from src/app.py; pandas behaviours that the source relies on
(NaN comparisons being false, `errors="coerce"` producing NaT, missing-column
access raising KeyError, `str(row)` containing column names and the
`Name: ..., dtype: object` footer) are modelled explicitly where the source
exercises them.
-/

set_option autoImplicit false
set_option linter.unnecessarySeqFocus false

namespace Jamf

/-- A single cell of a data frame: null (NaN/NaT), a string, an integer day
count, or a parsed timestamp represented as an absolute day number. -/
inductive Cell where
  | null
  | str (s : String)
  | int (n : Int)
  | date (d : Int)
  deriving DecidableEq, Repr

/-- Models `pd.notna` on a day-count value: false exactly on null (NaN). -/
def notna : Option Int → Bool
  | none => false
  | some _ => true

/-- Models the Python comparison `x < b` where `x` may be NaN: a comparison
against NaN is false, so a null day count never satisfies `x < b`. -/
def ltNull (x : Option Int) (b : Int) : Bool :=
  match x with
  | none => false
  | some v => decide (v < b)

/-- Models the Python comparison `x <= b` where `x` may be NaN (false on NaN). -/
def leNull (x : Option Int) (b : Int) : Bool :=
  match x with
  | none => false
  | some v => decide (v ≤ b)

/-- Embeds the Check-In Status lambda (src/app.py lines 47-49):
`"Checked in (<30 days)" if x < 30 else "Not checked in (30+ days)"`.
A null day count is NaN in the source and `NaN < 30` is false, so nulls take
the else branch. -/
def checkInStatus (x : Option Int) : String :=
  if ltNull x 30 then "Checked in (<30 days)" else "Not checked in (30+ days)"

/-- Embeds the Warranty Status lambda (src/app.py lines 55-58):
`"Expired" if pd.notna(x) and x < 0
 else ("Expiring Soon (<90 days)" if pd.notna(x) and x <= 90 else "Valid")`.
On a null day count both guarded conditions are false (`pd.notna` fails), so
the lambda's final else yields `"Valid"`. -/
def warrantyStatus (x : Option Int) : String :=
  if notna x && ltNull x 0 then "Expired"
  else if notna x && leNull x 90 then "Expiring Soon (<90 days)"
  else "Valid"

/-- C2 counterexample: the claim states that a null day count is classified as
none of the three labels; the code classifies it as `"Valid"`, one of the three
labels, because `pd.notna` only guards the first two branches. -/
theorem c2_null_warranty_counterexample :
    ¬ (warrantyStatus none ≠ "Expired" ∧
       warrantyStatus none ≠ "Expiring Soon (<90 days)" ∧
       warrantyStatus none ≠ "Valid") := by
  decide

/-- C2 amended: a record whose `days_until_expiration` is null is classified
`"Valid"` — there is no implicit unclassified value.  The `pd.notna` check
guards only the Expired and Expiring-Soon branches, so a null day count falls
through to the final else branch. -/
theorem c2_null_warranty_valid :
    warrantyStatus none = "Valid" ∧
    warrantyStatus none ≠ "Expired" ∧
    warrantyStatus none ≠ "Expiring Soon (<90 days)" := by
  decide

/-- C3 counterexample: the claim states that a day count of 0 is classified
`"Valid"`; the code classifies it `"Expiring Soon (<90 days)"` because the
second branch tests `x <= 90`, which 0 satisfies. -/
theorem c3_boundary_zero_counterexample :
    warrantyStatus (some 0) = "Expiring Soon (<90 days)" ∧
    warrantyStatus (some 0) ≠ "Valid" := by
  decide

/-- C3 amended: warranty classification is a total disjoint partition of
non-null day counts — exactly one of the three labels holds, characterised by
`d < 0`, `0 ≤ d ≤ 90` and `90 < d` — with both boundaries 90 and 0 classified
`"Expiring Soon (<90 days)"` (0 is neither Expired nor Valid). -/
theorem c3_warranty_partition (d : Int) :
    ((warrantyStatus (some d) = "Expired" ↔ d < 0) ∧
     (warrantyStatus (some d) = "Expiring Soon (<90 days)" ↔ 0 ≤ d ∧ d ≤ 90) ∧
     (warrantyStatus (some d) = "Valid" ↔ 90 < d)) ∧
    warrantyStatus (some 90) = "Expiring Soon (<90 days)" ∧
    warrantyStatus (some 0) = "Expiring Soon (<90 days)" := by
  refine ⟨⟨?_, ?_, ?_⟩, by decide, by decide⟩ <;>
    simp only [warrantyStatus, notna, ltNull, leNull, Bool.true_and] <;>
    split_ifs with h1 h2 <;>
    simp_all <;> omega

/-! ## Data frames

A frame is a list of column names plus rows; each row carries its pandas index
label (after `pd.concat(..., ignore_index=True)` labels are 0,1,2,...; they are
retained, not renumbered, by filtering) and one cell per column. -/

/-- A data frame: column names and labelled rows. -/
structure Frame where
  cols : List String
  rows : List (Nat × List Cell)
  deriving DecidableEq, Repr

/-- Well-formedness: every row has exactly one cell per column. -/
def FrameWF (df : Frame) : Prop :=
  ∀ r ∈ df.rows, (Prod.snd r).length = df.cols.length

instance (df : Frame) : Decidable (FrameWF df) := by
  unfold FrameWF; infer_instance

/-- The cell of a row under a given column name (first occurrence); null when
the column is not present. -/
def cellOf : List String → List Cell → String → Cell
  | [], _, _ => Cell.null
  | _ :: _, [], _ => Cell.null
  | c0 :: cs, v :: vs, c => if c0 = c then v else cellOf cs vs c

/-! ## Filter stage (src/app.py lines 93-104 and 187-190) -/

/-- The inventory page's filter selections: department, managed status, search
text, and operating system.  `"All"` (or an empty search) means no constraint. -/
structure FilterSpec where
  department : String
  managed : String
  searchText : String
  os : String
  deriving DecidableEq, Repr

/-- Embeds lines 94-95:
`if selected_dept != "All": results = results[results["Department"] == selected_dept]`.
There is no column-presence guard on this branch: when the Department column is
absent, the pandas access `results["Department"]` raises `KeyError`, modelled
here as `Except.error`.  A null Department never equals the selection. -/
def deptFilter (sel : String) (df : Frame) : Except String Frame :=
  if sel ≠ "All" then
    if "Department" ∈ df.cols then
      Except.ok { df with
        rows := df.rows.filter fun r => cellOf df.cols r.2 "Department" = Cell.str sel }
    else
      Except.error "KeyError: Department"
  else
    Except.ok df

/-- Embeds lines 96-100: the managed-status filter applies only when the
`Managed` column is present; the special selection `"Unmanaged"` keeps rows
whose `Managed` cell is null (`isna()`) or literally `"Unmanaged"`; any other
selection keeps rows whose cell equals it (null equals nothing). -/
def managedFilter (sel : String) (df : Frame) : Frame :=
  if sel ≠ "All" ∧ "Managed" ∈ df.cols then
    if sel = "Unmanaged" then
      { df with rows := df.rows.filter fun r =>
          cellOf df.cols r.2 "Managed" = Cell.null ∨
          cellOf df.cols r.2 "Managed" = Cell.str "Unmanaged" }
    else
      { df with rows := df.rows.filter fun r => cellOf df.cols r.2 "Managed" = Cell.str sel }
  else df

/-! ### The free-text search and the row's textual representation

Line 102 tests `search_term.lower() in str(row).lower()`, where `row` is a
pandas Series: its `str()` is one line per column — the column name, padding,
then the value — followed by the footer `Name: <label>, dtype: object`.
Column padding is simplified to a fixed four-space separator; the content
(every column name, every value, the footer) matches pandas. -/

/-- Lower-case a character list (models Python `str.lower()`). -/
def lowerL (s : List Char) : List Char := s.map Char.toLower

/-- Substring test on character lists: does `needle` occur inside `hay`?
Models the Python `in` operator on strings. -/
def containsL (hay needle : List Char) : Bool :=
  needle.isPrefixOf hay ||
    match hay with
    | [] => false
    | _ :: t => containsL t needle

/-- The printed form of one cell inside a Series representation: null prints
as `NaN`, a string prints as itself. -/
def cellChars : Cell → List Char
  | Cell.null => "NaN".data
  | Cell.str s => s.data
  | Cell.int n => (toString n).data
  | Cell.date d => (toString d).data

/-- The final line of a pandas Series representation. -/
def footerChars (label : Nat) : List Char :=
  "Name: ".data ++ (toString label).data ++ ", dtype: object".data

/-- The column-name/value lines of a Series representation, ending in the
given footer. -/
def rowLinesChars : List (String × Cell) → List Char → List Char
  | [], footer => footer
  | p :: rest, footer =>
      p.1.data ++ "    ".data ++ cellChars p.2 ++ '\n' :: rowLinesChars rest footer

/-- Models `str(row)` for a labelled row of a frame. -/
def rowChars (cols : List String) (cells : List Cell) (label : Nat) : List Char :=
  rowLinesChars (cols.zip cells) (footerChars label)

/-- The search predicate of line 102: the lower-cased search term occurs in
the lower-cased representation of the row. -/
def searchPred (term : String) (cols : List String) (r : Nat × List Cell) : Bool :=
  containsL (lowerL (rowChars cols r.2 r.1)) (lowerL term.data)

/-- Embeds lines 101-102: the search filter applies only when the search text
is non-empty (`if search_term:`). -/
def searchFilter (term : String) (df : Frame) : Frame :=
  if term ≠ "" then
    { df with rows := df.rows.filter fun r => searchPred term df.cols r }
  else df

/-- Embeds lines 103-104: the operating-system filter applies only when the
selection is not `"All"` and the column is present. -/
def osFilter (sel : String) (df : Frame) : Frame :=
  if sel ≠ "All" ∧ "Operating System" ∈ df.cols then
    { df with rows := df.rows.filter fun r =>
        cellOf df.cols r.2 "Operating System" = Cell.str sel }
  else df

/-- Embeds the inventory filter application (lines 93-104), in source order:
department (which may raise), then managed, then search, then operating
system. -/
def applyInventoryFilters (spec : FilterSpec) (df : Frame) : Except String Frame :=
  match deptFilter spec.department df with
  | Except.error e => Except.error e
  | Except.ok r =>
      Except.ok (osFilter spec.os (searchFilter spec.searchText (managedFilter spec.managed r)))

/-- Embeds the warranty page's department filter (lines 187-190), which —
unlike the inventory one — guards on column presence. -/
def warrantyDeptFilter (sel : String) (df : Frame) : Frame :=
  if sel ≠ "All" ∧ "Department" ∈ df.cols then
    { df with rows := df.rows.filter fun r => cellOf df.cols r.2 "Department" = Cell.str sel }
  else df

/-- Modelled from the spec's words for comparison with the code's search
predicate: a match against "every field concatenated" only — the concatenation
of the row's printed field values, with no column names or footer. -/
def specSearchPred (term : String) (cells : List Cell) : Bool :=
  containsL (lowerL (cells.foldr (fun c acc => cellChars c ++ acc) [])) (lowerL term.data)

/-! ### Helper lemmas about the search representation -/

theorem containsL_cons (x : Char) (t n : List Char) :
    containsL (x :: t) n = (n.isPrefixOf (x :: t) || containsL t n) := rfl

theorem containsL_append_right (a b n : List Char) (h : containsL b n = true) :
    containsL (a ++ b) n = true := by
  induction a with
  | nil => simpa using h
  | cons x t ih => rw [List.cons_append, containsL_cons, ih, Bool.or_true]

theorem lowerL_append (a b : List Char) : lowerL (a ++ b) = lowerL a ++ lowerL b :=
  List.map_append Char.toLower a b

theorem containsL_lowerL_rowLines (ps : List (String × Cell)) (footer n : List Char)
    (h : containsL (lowerL footer) n = true) :
    containsL (lowerL (rowLinesChars ps footer)) n = true := by
  induction ps with
  | nil => exact h
  | cons p rest ih =>
      show containsL (lowerL (p.1.data ++ "    ".data ++ cellChars p.2 ++
        '\n' :: rowLinesChars rest footer)) n = true
      rw [lowerL_append]
      apply containsL_append_right
      show containsL (Char.toLower '\n' :: lowerL (rowLinesChars rest footer)) n = true
      rw [containsL_cons, ih, Bool.or_true]

/-- C9 counterexample: the claim states the search predicate matches against
field values only; searching for `dtype` matches a row whose only field value
is `ABC` (because `str(row)` ends in `dtype: object`), while the
spec-worded field-values-only predicate does not match it. -/
theorem c9_search_counterexample :
    searchPred "dtype" ["Computer Name"] (0, [Cell.str "ABC"]) = true ∧
    specSearchPred "dtype" [Cell.str "ABC"] = false := by
  decide

/-- C9 amended: the free-text search is a case-insensitive substring match
against the row's pandas textual representation, which contains every column
name and the footer `Name: <label>, dtype: object` in addition to the field
values; consequently the search text `dtype` matches every record of every
record set, whatever its columns or field values. -/
theorem c9_search_matches_dtype (cols : List String) (cells : List Cell) (label : Nat) :
    searchPred "dtype" cols (label, cells) = true := by
  show containsL (lowerL (rowLinesChars (cols.zip cells) (footerChars label)))
    (lowerL "dtype".data) = true
  apply containsL_lowerL_rowLines
  show containsL (lowerL ("Name: ".data ++ (toString label).data ++ ", dtype: object".data))
    (lowerL "dtype".data) = true
  rw [lowerL_append]
  apply containsL_append_right
  decide

/-- C7: with the `Managed` column present, the `"Unmanaged"` selection keeps
exactly the rows whose `Managed` cell is null or the literal string
`"Unmanaged"`, and excludes rows with any other value. -/
theorem c7_unmanaged_filter (df : Frame) (h : "Managed" ∈ df.cols)
    (r : Nat × List Cell) (hr : r ∈ df.rows) :
    r ∈ (managedFilter "Unmanaged" df).rows ↔
      (cellOf df.cols r.2 "Managed" = Cell.null ∨
       cellOf df.cols r.2 "Managed" = Cell.str "Unmanaged") := by
  simp [managedFilter, h, List.mem_filter, hr]

/-- C7 witness at a concrete frame: a one-row frame whose `Managed` cell is
null. -/
theorem c7_unmanaged_filter_witness :
    (0, [Cell.null]) ∈ (managedFilter "Unmanaged" ⟨["Managed"], [(0, [Cell.null])]⟩).rows ↔
      (cellOf ["Managed"] [Cell.null] "Managed" = Cell.null ∨
       cellOf ["Managed"] [Cell.null] "Managed" = Cell.str "Unmanaged") :=
  c7_unmanaged_filter ⟨["Managed"], [(0, [Cell.null])]⟩ (by simp)
    (0, [Cell.null]) (by simp)

/-- C8: the trivial filter selection — every predicate `"All"` and an empty
search text — returns the record set unchanged in content and order. -/
theorem c8_trivial_filter_identity (df : Frame) :
    applyInventoryFilters ⟨"All", "All", "", "All"⟩ df = Except.ok df := rfl

/-- C5 counterexample: the claim states that a predicate over an absent column
is skipped; but the inventory department filter has no presence guard, so with
a non-`"All"` department selection and no `Department` column the filter
application raises (KeyError) instead of returning the record set selected by
the remaining (here all trivial) predicates. -/
theorem c5_dept_absent_counterexample :
    applyInventoryFilters ⟨"PRO", "All", "", "All"⟩
        ⟨["Computer Name"], [(0, [Cell.str "PRO-01"])]⟩ =
      Except.error "KeyError: Department" ∧
    applyInventoryFilters ⟨"PRO", "All", "", "All"⟩
        ⟨["Computer Name"], [(0, [Cell.str "PRO-01"])]⟩ ≠
      Except.ok ⟨["Computer Name"], [(0, [Cell.str "PRO-01"])]⟩ :=
  ⟨rfl, fun h => Except.noConfusion (rfl.trans h)⟩

/-- C5 amended: the managed and operating-system predicates (and the warranty
page's department predicate) are indeed skipped when their column is absent;
the inventory department predicate alone has no presence guard and raises
(KeyError) when its column is absent and its selection is not `"All"`. -/
theorem c5_absent_column_filters (sel : String) (df : Frame) :
    ("Managed" ∉ df.cols → managedFilter sel df = df) ∧
    ("Operating System" ∉ df.cols → osFilter sel df = df) ∧
    ("Department" ∉ df.cols → warrantyDeptFilter sel df = df) ∧
    (sel ≠ "All" → "Department" ∉ df.cols →
      deptFilter sel df = Except.error "KeyError: Department") := by
  refine ⟨fun h => ?_, fun h => ?_, fun h => ?_, fun h1 h2 => ?_⟩
  · simp [managedFilter, h]
  · simp [osFilter, h]
  · simp [warrantyDeptFilter, h]
  · simp [deptFilter, h1, h2]

/-- C5 witness at a concrete selection and frame without any of the filtered
columns. -/
theorem c5_absent_column_filters_witness :
    managedFilter "PRO" ⟨["Serial Number"], []⟩ = ⟨["Serial Number"], []⟩ ∧
    osFilter "PRO" ⟨["Serial Number"], []⟩ = ⟨["Serial Number"], []⟩ ∧
    warrantyDeptFilter "PRO" ⟨["Serial Number"], []⟩ = ⟨["Serial Number"], []⟩ ∧
    deptFilter "PRO" ⟨["Serial Number"], []⟩ = Except.error "KeyError: Department" := by
  have h := c5_absent_column_filters "PRO" ⟨["Serial Number"], []⟩
  exact ⟨h.1 (by simp), h.2.1 (by simp), h.2.2.1 (by simp), h.2.2.2 (by simp) (by simp)⟩

/-! ## Enrichment stage (src/app.py lines 41-58)

The enrichment block mutates the frame with pandas column assignments
`df[c] = values`: an existing column is overwritten in place, a new column is
appended on the right.  Timestamps are modelled at day granularity as absolute
day numbers. -/

/-- The column list after the assignment `df[c] = ...`: unchanged when the
column exists, extended on the right otherwise. -/
def colsAfter (cols : List String) (c : String) : List String :=
  if c ∈ cols then cols else cols ++ [c]

/-- One row after the column assignment: the cell under the first occurrence
of `c` is replaced, or the value is appended when `c` is absent. -/
def setRow : List String → List Cell → String → Cell → List Cell
  | [], row, _, v => row ++ [v]
  | _ :: _, [], _, _ => []
  | c0 :: cs, r0 :: rs, c, v => if c0 = c then v :: rs else r0 :: setRow cs rs c v

/-- The pandas column assignment `df[c] = vals` on a whole frame. -/
def setCol (df : Frame) (c : String) (vals : List Cell) : Frame :=
  { cols := colsAfter df.cols c
    rows := List.zipWith (fun r v => (r.1, setRow df.cols r.2 c v)) df.rows vals }

/-- The cells of one column, in row order (null where absent). -/
def getColCells (df : Frame) (c : String) : List Cell :=
  df.rows.map fun r => cellOf df.cols r.2 c

/-- Digits-only numeral reader used by the date parser. -/
def digits? (s : List Char) : Option Nat :=
  if s ≠ [] ∧ s.all Char.isDigit then
    some (s.foldl (fun a c => a * 10 + (c.toNat - 48)) 0)
  else none

/-- Gregorian leap-year test. -/
def isLeap (y : Nat) : Bool := (y % 4 == 0 && y % 100 != 0) || y % 400 == 0

/-- Days in each month of the Gregorian calendar. -/
def daysInMonth (y m : Nat) : Nat :=
  if m = 2 then (if isLeap y then 29 else 28)
  else if m ∈ [4, 6, 9, 11] then 30 else 31

/-- Cumulative day counts before each month in a non-leap year. -/
def cumDays (m : Nat) : Nat :=
  [0, 0, 31, 59, 90, 120, 151, 181, 212, 243, 273, 304, 334].getD m 0

/-- Absolute day number of a civil date. -/
def daysFromCivil (y m d : Nat) : Nat :=
  365 * y + y / 4 + y / 400 - y / 100 + cumDays m +
    (if 2 < m ∧ isLeap y then 1 else 0) + d

/-- Models `pd.to_datetime(s, errors="coerce")` at day granularity: a strict
`YYYY-MM-DD` read; any string that does not parse as a valid civil date
coerces to null (NaT) rather than raising. -/
def parseDate (s : String) : Option Int :=
  match (s.data.splitOn '-').map digits? with
  | [some y, some m, some d] =>
      if 1 ≤ m ∧ m ≤ 12 ∧ 1 ≤ d ∧ d ≤ daysInMonth y m then
        some (Int.ofNat (daysFromCivil y m d))
      else none
  | _ => none

/-- `pd.to_datetime(..., errors="coerce")` on one cell: a string parses or
coerces to null; an already-parsed timestamp is left unchanged; null stays
null. -/
def toDatetimeCell : Cell → Cell
  | Cell.str s =>
      match parseDate s with
      | some d => Cell.date d
      | none => Cell.null
  | Cell.date d => Cell.date d
  | _ => Cell.null

/-- Line 46: `(datetime.datetime.now() - df["Last Inventory Update"]).dt.days`
— elapsed whole days; null (NaT) propagates. -/
def daysSinceCell (now : Int) : Cell → Cell
  | Cell.date d => Cell.int (now - d)
  | _ => Cell.null

/-- Line 54: `(df["Warranty Expiration"] - pd.Timestamp.now()).dt.days` —
remaining whole days, negative when already expired; null propagates. -/
def daysUntilCell (now : Int) : Cell → Cell
  | Cell.date d => Cell.int (d - now)
  | _ => Cell.null

/-- The integer content of a day-count cell (none on null). -/
def cellInt? : Cell → Option Int
  | Cell.int n => some n
  | _ => none

/-- The Check-In Status lambda applied to one day-count cell. -/
def checkInCell (c : Cell) : Cell := Cell.str (checkInStatus (cellInt? c))

/-- The Warranty Status lambda applied to one day-count cell. -/
def warrantyStatusCell (c : Cell) : Cell := Cell.str (warrantyStatus (cellInt? c))

/-- The fixed closed set of department codes of the extraction regex
`^(PRO|SEM|STU|DCE|SOE)` (line 43), in alternation order. -/
def deptCodes : List String := ["PRO", "SEM", "STU", "DCE", "SOE"]

/-- Leading-substring test on character lists. -/
def isPre : List Char → List Char → Bool
  | [], _ => true
  | _ :: _, [] => false
  | p :: ps, s0 :: ss => p = s0 && isPre ps ss

/-- Line 43: `.str.extract(r"^(PRO|SEM|STU|DCE|SOE)")` on one name — the first
alternative matching at the start of the string, with no anchor after the
group, so any continuation (or none) is accepted. -/
def extractDept (s : String) : Option String :=
  deptCodes.find? fun code => isPre code.data s.data

/-- The extraction on one cell: a non-string (NaN under `.str`) yields null,
as does a name starting with no code. -/
def extractDeptCell : Cell → Cell
  | Cell.str s =>
      match extractDept s with
      | some code => Cell.str code
      | none => Cell.null
  | _ => Cell.null

/-- The column assignment `df[target] = df[src].apply(f)` — the shape of every
line of the enrichment block: values are computed from the frame's current
`src` column and assigned to `target`. -/
def withCol (df : Frame) (target src : String) (f : Cell → Cell) : Frame :=
  setCol df target ((getColCells df src).map f)

/-- Lines 42-43: the Department derivation, guarded on the presence of the
`Computer Name` column. -/
def enrichDept (df : Frame) : Frame :=
  if "Computer Name" ∈ df.cols then
    withCol df "Department" "Computer Name" extractDeptCell
  else df

/-- Lines 44-49: parse the `Last Inventory Update` column in place, then
derive `Days Since Update` from the overwritten column and `Check-In Status`
from the day counts; all guarded on the source column's presence. -/
def enrichCheckIn (now : Int) (df : Frame) : Frame :=
  if "Last Inventory Update" ∈ df.cols then
    withCol
      (withCol
        (withCol df "Last Inventory Update" "Last Inventory Update" toDatetimeCell)
        "Days Since Update" "Last Inventory Update" (daysSinceCell now))
      "Check-In Status" "Days Since Update" checkInCell
  else df

/-- Lines 52-58: parse the `Warranty Expiration` column in place, then derive
`Days Until Expiration` and `Warranty Status`. -/
def enrichWarranty (now : Int) (df : Frame) : Frame :=
  if "Warranty Expiration" ∈ df.cols then
    withCol
      (withCol
        (withCol df "Warranty Expiration" "Warranty Expiration" toDatetimeCell)
        "Days Until Expiration" "Warranty Expiration" (daysUntilCell now))
      "Warranty Status" "Days Until Expiration" warrantyStatusCell
  else df

/-- Embeds the whole enrichment block (lines 41-58), in source order. -/
def enrich (now : Int) (df : Frame) : Frame :=
  enrichWarranty now (enrichCheckIn now (enrichDept df))

/-! ## Upload and batch read (src/app.py lines 29-58) -/

/-- The union of the frames' columns in order of first appearance, as
`pd.concat` computes the result schema. -/
def unionCols (dfs : List Frame) : List String :=
  dfs.foldl (fun acc df => acc ++ df.cols.filter (fun c => c ∉ acc)) []

/-- One row re-indexed to the concatenated schema: absent columns become
null. -/
def reindexRow (cols : List String) (df : Frame) (row : List Cell) : List Cell :=
  cols.map fun c => if c ∈ df.cols then cellOf df.cols row c else Cell.null

/-- `pd.concat(dfs, ignore_index=True)`: rows of the first frame, then of the
second, and so on, relabelled 0,1,2,... over the union schema. -/
def concatFrames (dfs : List Frame) : Frame :=
  let cols := unionCols dfs
  let rows := dfs.foldl (fun acc df => acc ++ df.rows.map fun r => reindexRow cols df r.2) []
  { cols := cols, rows := rows.enum }

/-- Lines 29-39: each uploaded file is `some frame` when `pd.read_csv`
succeeds and `none` when it raises (the except branch reports the error and
drops that file); successful reads are concatenated, and when none succeeded
`df` keeps its initial value `None`. -/
def readBatch (files : List (Option Frame)) : Option Frame :=
  let dfs := files.filterMap id
  if dfs.isEmpty then none else some (concatFrames dfs)

/-- Lines 29-58: the batch read followed by the enrichment block.  The
enrichment block tests `"Computer Name" in df.columns` unconditionally, so
when every uploaded file failed to read, `df` is still `None` and Python
raises `AttributeError` — modelled as `Except.error`. -/
def pipeline (now : Int) (files : List (Option Frame)) : Except String Frame :=
  match readBatch files with
  | none => Except.error "AttributeError: NoneType object has no attribute columns"
  | some df => Except.ok (enrich now df)

/-- Lines 30 and 221-222: the whole block runs only under `if uploaded_files:`;
with zero uploaded files nothing runs (an info message is shown instead). -/
def uploadPipeline (now : Int) (files : List (Option Frame)) :
    Option (Except String Frame) :=
  if files.isEmpty then none else some (pipeline now files)

/-- C1: with at least one uploaded file and every read failing, the pipeline
does not yield an empty record set — `df` is still `None` when the enrichment
block reads `df.columns`, so the code raises `AttributeError`; and with zero
uploaded files the guarded block is skipped entirely, producing no record set
at all. -/
theorem c1_all_reads_fail_raises :
    uploadPipeline 0 [none] =
      some (Except.error "AttributeError: NoneType object has no attribute columns") ∧
    uploadPipeline 0 [] = none :=
  ⟨rfl, rfl⟩

/-- C4: when the raw last-inventory-update cell parses to null (absent or
unparseable), the derived day count is null, the comparison `x < 30` on that
null evaluates false, and the check-in status is
`"Not checked in (30+ days)"`. -/
theorem c4_null_checkin (now : Int) (raw : Cell) (h : toDatetimeCell raw = Cell.null) :
    daysSinceCell now (toDatetimeCell raw) = Cell.null ∧
    ltNull (cellInt? (daysSinceCell now (toDatetimeCell raw))) 30 = false ∧
    checkInCell (daysSinceCell now (toDatetimeCell raw)) =
      Cell.str "Not checked in (30+ days)" := by
  rw [h]
  exact ⟨rfl, rfl, rfl⟩

/-- C4 witness at a concrete unparseable raw value. -/
theorem c4_null_checkin_witness :
    daysSinceCell 0 (toDatetimeCell (Cell.str "notadate")) = Cell.null ∧
    ltNull (cellInt? (daysSinceCell 0 (toDatetimeCell (Cell.str "notadate")))) 30 = false ∧
    checkInCell (daysSinceCell 0 (toDatetimeCell (Cell.str "notadate"))) =
      Cell.str "Not checked in (30+ days)" :=
  c4_null_checkin 0 (Cell.str "notadate") (by decide)

/-- Two lists that both lead a third and have equal length are equal. -/
theorem isPre_unique (c1 : List Char) :
    ∀ c2 s : List Char, isPre c1 s = true → isPre c2 s = true →
      c1.length = c2.length → c1 = c2 := by
  induction c1 with
  | nil =>
      intro c2 s _ _ hlen
      exact (List.length_eq_zero.mp hlen.symm).symm
  | cons p ps ih =>
      intro c2 s h1 h2 hlen
      cases c2 with
      | nil => simp at hlen
      | cons q qs =>
          cases s with
          | nil => simp [isPre] at h1
          | cons s0 ss =>
              simp only [isPre, Bool.and_eq_true, decide_eq_true_eq] at h1 h2
              simp only [List.length_cons, Nat.succ.injEq] at hlen
              rw [h1.1, h2.1, ih qs ss h1.2 h2.2 hlen]

/-- C10: department extraction is a bare leading-substring match with no
token-boundary requirement — a name beginning with a code (followed by
anything, a separator not required) yields exactly that code; a name starting
with no code, or an absent name, yields null; for example `STUDENT-01` yields
`STU` and `PROBE` yields `PRO`. -/
theorem c10_dept_bare_match (s : String) :
    (∀ code ∈ deptCodes, isPre code.data s.data = true → extractDept s = some code) ∧
    ((∀ code ∈ deptCodes, isPre code.data s.data = false) → extractDept s = none) ∧
    extractDeptCell Cell.null = Cell.null ∧
    extractDept "STUDENT-01" = some "STU" ∧
    extractDept "PROBE" = some "PRO" := by
  refine ⟨?_, ?_, by decide, by decide, by decide⟩
  · intro code hc hpre
    have earlier_false : ∀ a b : List Char, isPre b s.data = true →
        a.length = b.length → a ≠ b → isPre a s.data = false := by
      intro a b hb hlen hne
      cases hx : isPre a s.data with
      | false => rfl
      | true => exact absurd (isPre_unique a b s.data hx hb hlen) hne
    simp only [deptCodes, List.mem_cons, List.not_mem_nil, or_false] at hc
    rcases hc with rfl | rfl | rfl | rfl | rfl
    · simp [extractDept, deptCodes, List.find?, hpre]
    · have l1 := earlier_false "PRO".data "SEM".data hpre (by decide) (by decide)
      simp [extractDept, deptCodes, List.find?, l1, hpre]
    · have l1 := earlier_false "PRO".data "STU".data hpre (by decide) (by decide)
      have l2 := earlier_false "SEM".data "STU".data hpre (by decide) (by decide)
      simp [extractDept, deptCodes, List.find?, l1, l2, hpre]
    · have l1 := earlier_false "PRO".data "DCE".data hpre (by decide) (by decide)
      have l2 := earlier_false "SEM".data "DCE".data hpre (by decide) (by decide)
      have l3 := earlier_false "STU".data "DCE".data hpre (by decide) (by decide)
      simp [extractDept, deptCodes, List.find?, l1, l2, l3, hpre]
    · have l1 := earlier_false "PRO".data "SOE".data hpre (by decide) (by decide)
      have l2 := earlier_false "SEM".data "SOE".data hpre (by decide) (by decide)
      have l3 := earlier_false "STU".data "SOE".data hpre (by decide) (by decide)
      have l4 := earlier_false "DCE".data "SOE".data hpre (by decide) (by decide)
      simp [extractDept, deptCodes, List.find?, l1, l2, l3, l4, hpre]
  · intro hall
    have h1 := hall "PRO" (by simp [deptCodes])
    have h2 := hall "SEM" (by simp [deptCodes])
    have h3 := hall "STU" (by simp [deptCodes])
    have h4 := hall "DCE" (by simp [deptCodes])
    have h5 := hall "SOE" (by simp [deptCodes])
    simp [extractDept, deptCodes, List.find?, h1, h2, h3, h4, h5]

/-- C10 witness at concrete names. -/
theorem c10_dept_bare_match_witness :
    extractDept "STUDENT-01" = some "STU" ∧ extractDept "QRS" = none :=
  ⟨(c10_dept_bare_match "STUDENT-01").1 "STU" (by decide) (by decide),
   (c10_dept_bare_match "QRS").2.1 (by decide)⟩

/-! ## Preservation properties of column assignment (for C6) -/

theorem colsAfter_cons (c0 c : String) (cs : List String) (h : c0 ≠ c) :
    colsAfter (c0 :: cs) c = c0 :: colsAfter cs c := by
  by_cases hm : c ∈ cs
  · simp [colsAfter, List.mem_cons, hm, Ne.symm h]
  · simp [colsAfter, List.mem_cons, hm, Ne.symm h]

theorem cellOf_setRow_ne (cols : List String) :
    ∀ (row : List Cell) (c c2 : String) (v : Cell),
      row.length = cols.length → c2 ≠ c →
      cellOf (colsAfter cols c) (setRow cols row c v) c2 = cellOf cols row c2 := by
  induction cols with
  | nil =>
      intro row c c2 v hlen hne
      have hrow : row = [] := List.length_eq_zero.mp hlen
      subst hrow
      simp [colsAfter, setRow, cellOf, Ne.symm hne]
  | cons c0 cs ih =>
      intro row c c2 v hlen hne
      cases row with
      | nil => simp at hlen
      | cons r0 rs =>
          simp only [List.length_cons, Nat.succ.injEq] at hlen
          by_cases h0 : c0 = c
          · subst h0
            have hca : colsAfter (c0 :: cs) c0 = c0 :: cs := by
              simp [colsAfter, List.mem_cons]
            rw [hca]
            simp [setRow, cellOf, Ne.symm hne]
          · rw [colsAfter_cons c0 c cs h0]
            have hsr : setRow (c0 :: cs) (r0 :: rs) c v = r0 :: setRow cs rs c v := by
              simp [setRow, h0]
            rw [hsr]
            by_cases h2 : c0 = c2
            · subst h2; simp [cellOf]
            · simp [cellOf, h2, ih rs c c2 v hlen hne]

theorem setRow_length (cols : List String) :
    ∀ (row : List Cell) (c : String) (v : Cell), row.length = cols.length →
      (setRow cols row c v).length = (colsAfter cols c).length := by
  induction cols with
  | nil =>
      intro row c v hlen
      have hrow : row = [] := List.length_eq_zero.mp hlen
      subst hrow
      simp [setRow, colsAfter]
  | cons c0 cs ih =>
      intro row c v hlen
      cases row with
      | nil => simp at hlen
      | cons r0 rs =>
          simp only [List.length_cons, Nat.succ.injEq] at hlen
          by_cases h0 : c0 = c
          · subst h0
            have hca : colsAfter (c0 :: cs) c0 = c0 :: cs := by
              simp [colsAfter, List.mem_cons]
            simp [setRow, hca, hlen]
          · rw [colsAfter_cons c0 c cs h0]
            simp [setRow, h0, ih rs c v hlen]

/-- The rows of a `withCol` assignment, as a single map over the original
rows. -/
theorem withCol_rows (df : Frame) (target src : String) (f : Cell → Cell) :
    (withCol df target src f).rows =
      df.rows.map fun r =>
        (r.1, setRow df.cols r.2 target (f (cellOf df.cols r.2 src))) := by
  show List.zipWith _ df.rows ((df.rows.map _).map f) = _
  rw [List.map_map, List.zipWith_map_right, List.zipWith_same]
  simp [Function.comp]

/-- `withCol` preserves well-formedness, the row labels in order, and the
cells of every column other than its target. -/
theorem withCol_preserves (df : Frame) (target src c : String) (f : Cell → Cell)
    (hwf : FrameWF df) (hne : c ≠ target) :
    FrameWF (withCol df target src f) ∧
    (withCol df target src f).rows.map Prod.fst = df.rows.map Prod.fst ∧
    getColCells (withCol df target src f) c = getColCells df c := by
  refine ⟨?_, ?_, ?_⟩
  · intro r hr
    rw [withCol_rows] at hr
    rcases List.mem_map.mp hr with ⟨r0, hr0, rfl⟩
    exact setRow_length df.cols r0.2 target _ (hwf r0 hr0)
  · rw [withCol_rows, List.map_map]
    rfl
  · show (withCol df target src f).rows.map
        (fun r => cellOf (withCol df target src f).cols r.2 c) = _
    rw [withCol_rows, List.map_map]
    apply List.map_congr_left
    intro r0 hr0
    exact cellOf_setRow_ne df.cols r0.2 target c _ (hwf r0 hr0) hne

/-- The column names written by the enrichment block: the five derived fields
plus the two timestamp columns it overwrites in place. -/
def enrichedCols : List String :=
  ["Department", "Last Inventory Update", "Days Since Update", "Check-In Status",
   "Warranty Expiration", "Days Until Expiration", "Warranty Status"]

theorem enrichDept_preserves (df : Frame) (c : String) (hwf : FrameWF df)
    (h1 : c ≠ "Department") :
    FrameWF (enrichDept df) ∧
    (enrichDept df).rows.map Prod.fst = df.rows.map Prod.fst ∧
    getColCells (enrichDept df) c = getColCells df c := by
  unfold enrichDept
  split_ifs with h
  · exact withCol_preserves df _ _ c _ hwf h1
  · exact ⟨hwf, rfl, rfl⟩

theorem enrichCheckIn_preserves (now : Int) (df : Frame) (c : String) (hwf : FrameWF df)
    (h1 : c ≠ "Last Inventory Update") (h2 : c ≠ "Days Since Update")
    (h3 : c ≠ "Check-In Status") :
    FrameWF (enrichCheckIn now df) ∧
    (enrichCheckIn now df).rows.map Prod.fst = df.rows.map Prod.fst ∧
    getColCells (enrichCheckIn now df) c = getColCells df c := by
  unfold enrichCheckIn
  split_ifs with h
  · obtain ⟨w1, l1, g1⟩ := withCol_preserves df _ _ c toDatetimeCell hwf h1
    obtain ⟨w2, l2, g2⟩ := withCol_preserves _ _ _ c (daysSinceCell now) w1 h2
    obtain ⟨w3, l3, g3⟩ := withCol_preserves _ _ _ c checkInCell w2 h3
    exact ⟨w3, l3.trans (l2.trans l1), g3.trans (g2.trans g1)⟩
  · exact ⟨hwf, rfl, rfl⟩

theorem enrichWarranty_preserves (now : Int) (df : Frame) (c : String) (hwf : FrameWF df)
    (h1 : c ≠ "Warranty Expiration") (h2 : c ≠ "Days Until Expiration")
    (h3 : c ≠ "Warranty Status") :
    FrameWF (enrichWarranty now df) ∧
    (enrichWarranty now df).rows.map Prod.fst = df.rows.map Prod.fst ∧
    getColCells (enrichWarranty now df) c = getColCells df c := by
  unfold enrichWarranty
  split_ifs with h
  · obtain ⟨w1, l1, g1⟩ := withCol_preserves df _ _ c toDatetimeCell hwf h1
    obtain ⟨w2, l2, g2⟩ := withCol_preserves _ _ _ c (daysUntilCell now) w1 h2
    obtain ⟨w3, l3, g3⟩ := withCol_preserves _ _ _ c warrantyStatusCell w2 h3
    exact ⟨w3, l3.trans (l2.trans l1), g3.trans (g2.trans g1)⟩
  · exact ⟨hwf, rfl, rfl⟩

/-- C6 counterexample: the claim states every original field value — in
particular a raw, even unparseable, `last_inventory_update` — survives
enrichment unchanged; but line 45 overwrites the `Last Inventory Update`
column with its parsed value, so the unparseable raw string `notadate`
becomes null. -/
theorem c6_overwrite_counterexample :
    cellOf (enrich 0 ⟨["Last Inventory Update"], [(0, [Cell.str "notadate"])]⟩).cols
        ((enrich 0 ⟨["Last Inventory Update"], [(0, [Cell.str "notadate"])]⟩).rows.headD
          (0, [])).2 "Last Inventory Update" = Cell.null ∧
    Cell.null ≠ Cell.str "notadate" := by
  decide

/-- C6 amended: enrichment preserves row order (the labels, in order) and the
values of every original column except the seven it writes — the five derived
columns plus `Last Inventory Update` and `Warranty Expiration`, which are
overwritten in place with parsed timestamps (unparseable raw values becoming
null). -/
theorem c6_enrich_preserves (now : Int) (df : Frame) (c : String)
    (hwf : FrameWF df) (hc : c ∉ enrichedCols) :
    (enrich now df).rows.map Prod.fst = df.rows.map Prod.fst ∧
    getColCells (enrich now df) c = getColCells df c := by
  simp only [enrichedCols, List.mem_cons, List.not_mem_nil, or_false, not_or] at hc
  obtain ⟨n1, n2, n3, n4, n5, n6, n7⟩ := hc
  obtain ⟨w1, l1, g1⟩ := enrichDept_preserves df c hwf n1
  obtain ⟨w2, l2, g2⟩ := enrichCheckIn_preserves now _ c w1 n2 n3 n4
  obtain ⟨w3, l3, g3⟩ := enrichWarranty_preserves now _ c w2 n5 n6 n7
  exact ⟨l3.trans (l2.trans l1), g3.trans (g2.trans g1)⟩

/-- C6 witness at a concrete frame with an untouched column. -/
theorem c6_enrich_preserves_witness :
    (enrich 0 ⟨["Serial Number"], [(0, [Cell.str "C02XYZ"])]⟩).rows.map Prod.fst =
      (⟨["Serial Number"], [(0, [Cell.str "C02XYZ"])]⟩ : Frame).rows.map Prod.fst ∧
    getColCells (enrich 0 ⟨["Serial Number"], [(0, [Cell.str "C02XYZ"])]⟩) "Serial Number" =
      getColCells ⟨["Serial Number"], [(0, [Cell.str "C02XYZ"])]⟩ "Serial Number" :=
  c6_enrich_preserves 0 ⟨["Serial Number"], [(0, [Cell.str "C02XYZ"])]⟩ "Serial Number"
    (by decide) (by decide)

end Jamf
